import Mathlib

/-!
A shallow embedding of the `be_task_ca` backend core: the domain entities
(`Item`, `User`, `CartItem`), the repository interfaces, the in-memory and
relational repository implementations, the mock item service, and the use
cases (`CreateItemUseCase`, `AddItemToCartUseCase`, `ListItemsInCartUseCase`).

Python exceptions are modelled with `Except String`; the message strings are
the exact `ValueError` messages of the source.  Each use case's `execute`
returns, besides its result, the list of repository/service calls it issued
(in order) and the final repository state, so that claims about call order
and about the absence of writes can be stated directly.  `uuid4()` is
modelled by an explicit `new_id` argument.  Python `Decimal` prices are
modelled as rationals, `int` as `Int`, `UUID` as `Nat`.
-/

set_option autoImplicit false

namespace BeTaskCA

abbrev UUID := Nat

/-- Models `be_task_ca.domain.user.entities.CartItem` (plain record part). -/
structure CartItem where
  user_id : UUID
  item_id : UUID
  quantity : Int
deriving Repr, DecidableEq

/-- Models `CartItem.__post_init__`: constructing a `CartItem` raises
`ValueError("Quantity must be positive")` when `quantity <= 0`.  Construction
with the validation is therefore modelled as a fallible `make`. -/
def CartItem.make (user_id : UUID) (item_id : UUID) (quantity : Int) :
    Except String CartItem :=
  if quantity ≤ 0 then .error "Quantity must be positive"
  else .ok ⟨user_id, item_id, quantity⟩

/-- Models `be_task_ca.domain.user.entities.User`. -/
structure User where
  id : UUID
  email : String
  first_name : String
  last_name : String
  hashed_password : String
  shipping_address : Option String
  cart_items : List CartItem
deriving Repr, DecidableEq

/-- Models `be_task_ca.domain.item.entities.Item` (plain record part). -/
structure Item where
  id : UUID
  name : String
  description : Option String
  price : ℚ
  quantity : Int
deriving Repr, DecidableEq

/-- Models `Item.__post_init__`: price must be `≥ 0`, then quantity must be `≥ 0`;
otherwise construction raises the corresponding `ValueError`. -/
def Item.make (id : UUID) (name : String) (description : Option String)
    (price : ℚ) (quantity : Int) : Except String Item :=
  if price < 0 then .error "Price cannot be negative"
  else if quantity < 0 then .error "Quantity cannot be negative"
  else .ok ⟨id, name, description, price, quantity⟩

/-! ### Request / response schemas (`schema.py`) -/

/-- Models `CreateItemRequest`. -/
structure CreateItemRequest where
  name : String
  description : Option String
  price : ℚ
  quantity : Int
deriving Repr, DecidableEq

/-- Models `CreateItemResponse`. -/
structure CreateItemResponse where
  name : String
  description : Option String
  price : ℚ
  quantity : Int
  id : UUID
deriving Repr, DecidableEq

/-- Models `AddToCartRequest`; also the per-line shape inside `AddToCartResponse`. -/
structure AddToCartRequest where
  item_id : UUID
  quantity : Int
deriving Repr, DecidableEq

/-- Models `AddToCartResponse`. -/
structure AddToCartResponse where
  items : List AddToCartRequest
deriving Repr, DecidableEq

/-! ### Repository interfaces

The Python repositories are classes whose methods read and mutate internal
state (`self._items`, a database session, ...).  They are modelled as records
of pure functions over an explicit state type `σ`; `save` returns the saved
entity together with the new state, exactly as the Python method returns the
saved entity while mutating the store. -/

/-- Models `be_task_ca.interfaces.item.ItemRepository`. -/
structure ItemRepository (σ : Type) where
  save : σ → Item → Item × σ
  find_by_name : σ → String → Option Item
  find_by_id : σ → UUID → Option Item
  get_all : σ → List Item

/-- Models `be_task_ca.interfaces.user.UserRepository`. -/
structure UserRepository (σ : Type) where
  save : σ → User → User × σ
  find_by_email : σ → String → Option User
  find_by_id : σ → UUID → Option User
  find_cart_items : σ → UUID → List CartItem

/-- The item-details dictionary returned by `ItemService.get_item`
(`{"id": ..., "name": ..., "quantity": ...}`). -/
structure ItemDetails where
  id : UUID
  name : String
  quantity : Int
deriving Repr, DecidableEq

/-- Models `be_task_ca.interfaces.user.ItemService` (the external inventory
collaborator; its two coroutines are modelled as pure functions). -/
structure ItemService where
  get_item : UUID → Option ItemDetails
  check_stock : UUID → Int → Bool

/-! ### In-memory repositories

A Python `dict[UUID, X]` is modelled as an insertion-ordered association
list: updating an existing key replaces the value in place, a new key is
appended, and `.values()` iterates in that order. -/

/-- Models `dict.__setitem__`: replace in place when the key is present, append
otherwise. -/
def dictInsert {α : Type} (l : List (UUID × α)) (k : UUID) (v : α) :
    List (UUID × α) :=
  match l with
  | [] => [(k, v)]
  | (k', v') :: rest =>
    if k' = k then (k, v) :: rest else (k', v') :: dictInsert rest k v

/-- Models `dict.get`: the value at the key, if present. -/
def dictGet {α : Type} (l : List (UUID × α)) (k : UUID) : Option α :=
  match l with
  | [] => none
  | (k', v') :: rest => if k' = k then some v' else dictGet rest k

/-- The values of the dict, in insertion order (`dict.values()`). -/
def dictValues {α : Type} (l : List (UUID × α)) : List α :=
  l.map Prod.snd

/-- State of `be_task_ca.infra.item.in_memory_repository.InMemoryItemRepository`:
the `self._items` dict. -/
abbrev ItemStore := List (UUID × Item)

/-- Models `InMemoryItemRepository.save`: store a copy under `item.id`, return it. -/
def inMemoryItemSave (s : ItemStore) (item : Item) : Item × ItemStore :=
  (item, dictInsert s item.id item)

/-- Models `InMemoryItemRepository.find_by_id`: `self._items.get(item_id)`. -/
def inMemoryItemFindById (s : ItemStore) (item_id : UUID) : Option Item :=
  dictGet s item_id

/-- Models `InMemoryItemRepository.find_by_name`: first stored item (in iteration
order) whose name equals `name`. -/
def inMemoryItemFindByName (s : ItemStore) (name : String) : Option Item :=
  (dictValues s).find? (fun item => item.name == name)

/-- Models `InMemoryItemRepository.get_all`: `list(self._items.values())`. -/
def inMemoryItemGetAll (s : ItemStore) : List Item :=
  dictValues s

/-- The in-memory item repository, bundled as an `ItemRepository`. -/
def InMemoryItemRepository : ItemRepository ItemStore :=
  ⟨inMemoryItemSave, inMemoryItemFindByName, inMemoryItemFindById,
    inMemoryItemGetAll⟩

/-- State of `InMemoryUserRepository`: the `self._users` dict. -/
abbrev UserStore := List (UUID × User)

/-- Models `InMemoryUserRepository.save`: rebuild a deep copy of the user (identity
on immutable values) and store it under `user.id`. -/
def inMemoryUserSave (s : UserStore) (user : User) : User × UserStore :=
  (user, dictInsert s user.id user)

/-- Models `InMemoryUserRepository.find_by_email`: first stored user (in iteration
order) whose email matches. -/
def inMemoryUserFindByEmail (s : UserStore) (email : String) : Option User :=
  (dictValues s).find? (fun user => user.email == email)

/-- Models `InMemoryUserRepository.find_by_id`: `self._users.get(user_id)`. -/
def inMemoryUserFindById (s : UserStore) (user_id : UUID) : Option User :=
  dictGet s user_id

/-- Models `InMemoryUserRepository.find_cart_items`: the stored user's cart items,
or `[]` when the user is absent. -/
def inMemoryUserFindCartItems (s : UserStore) (user_id : UUID) :
    List CartItem :=
  match dictGet s user_id with
  | some user => user.cart_items
  | none => []

/-- The in-memory user repository, bundled as a `UserRepository`. -/
def InMemoryUserRepository : UserRepository UserStore :=
  ⟨inMemoryUserSave, inMemoryUserFindByEmail, inMemoryUserFindById,
    inMemoryUserFindCartItems⟩

/-! ### Mock item service (`be_task_ca.user.infra.item_service.MockItemService`) -/

/-- Models `MockItemService.get_item`: always returns the hardcoded dictionary
`{"id": item_id, "name": "Mock Item", "quantity": 12}`. -/
def mockGetItem (item_id : UUID) : Option ItemDetails :=
  some ⟨item_id, "Mock Item", 12⟩

/-- Models `MockItemService.check_stock`: fetches the mock item and returns
`item is not None and item["quantity"] >= quantity`. -/
def mockCheckStock (item_id : UUID) (quantity : Int) : Bool :=
  match mockGetItem item_id with
  | none => false
  | some item => item.quantity ≥ quantity

/-- The mock item service bundled as an `ItemService`. -/
def MockItemService : ItemService :=
  ⟨mockGetItem, mockCheckStock⟩

/-! ### Use cases

Each `execute` additionally records the repository/service calls it issued,
in order, so that temporal claims ("`save` is never invoked", "rejected
before any repository interaction") are directly statable. -/

/-- A call issued by `CreateItemUseCase.execute` to its item repository. -/
inductive ItemRepoCall where
  | find_by_name (name : String)
  | find_by_id (id : UUID)
  | save (item : Item)
  | get_all
deriving Repr, DecidableEq

/-- Whether an item-repository call is a write. -/
def ItemRepoCall.isSave : ItemRepoCall → Bool
  | .save _ => true
  | _ => false

/-- Result of `CreateItemUseCase.execute`: outcome, calls issued, final
repository state. -/
structure ItemExec (σ : Type) where
  result : Except String CreateItemResponse
  calls : List ItemRepoCall
  state : σ

/-- Models `be_task_ca.domain.item.usecases.CreateItemUseCase.execute`.  The id
produced by `uuid4()` is the explicit argument `new_id`. -/
def CreateItemUseCase.execute {σ : Type} (item_repository : ItemRepository σ)
    (s : σ) (request : CreateItemRequest) (new_id : UUID) : ItemExec σ :=
  match item_repository.find_by_name s request.name with
  | some _ =>
    ⟨.error "An item with this name already exists",
      [.find_by_name request.name], s⟩
  | none =>
    match Item.make new_id request.name request.description request.price
        request.quantity with
    | .error e => ⟨.error e, [.find_by_name request.name], s⟩
    | .ok item =>
      let saved := item_repository.save s item
      ⟨.ok ⟨saved.1.name, saved.1.description, saved.1.price, saved.1.quantity,
          saved.1.id⟩,
        [.find_by_name request.name, .save item], saved.2⟩

/-- A call issued by `AddItemToCartUseCase.execute` to its user repository or
item service. -/
inductive CartCall where
  | find_by_id (id : UUID)
  | get_item (id : UUID)
  | check_stock (id : UUID) (quantity : Int)
  | save (user : User)
deriving Repr, DecidableEq

/-- Whether a cart-use-case call is a repository write. -/
def CartCall.isSave : CartCall → Bool
  | .save _ => true
  | _ => false

/-- Result of `AddItemToCartUseCase.execute`: outcome, calls issued, final
repository state. -/
structure CartExec (σ : Type) where
  result : Except String AddToCartResponse
  calls : List CartCall
  state : σ

/-- Models `be_task_ca.domain.user.usecases.AddItemToCartUseCase.execute`:
load the user, look the item up through the item service, check stock,
reject duplicates, then construct the cart line, append it, save the whole
user and answer with the full cart. -/
def AddItemToCartUseCase.execute {σ : Type} (user_repository : UserRepository σ)
    (s : σ) (item_service : ItemService) (user_id : UUID)
    (request : AddToCartRequest) : CartExec σ :=
  match user_repository.find_by_id s user_id with
  | none => ⟨.error "User does not exists", [.find_by_id user_id], s⟩
  | some user =>
    match item_service.get_item request.item_id with
    | none =>
      ⟨.error "Item does not exists",
        [.find_by_id user_id, .get_item request.item_id], s⟩
    | some _ =>
      match item_service.check_stock request.item_id request.quantity with
      | false =>
        ⟨.error "Not enough items in stock",
          [.find_by_id user_id, .get_item request.item_id,
            .check_stock request.item_id request.quantity], s⟩
      | true =>
      match user.cart_items.any
          (fun cart_item => cart_item.item_id == request.item_id) with
      | true =>
        ⟨.error "Item already in cart",
          [.find_by_id user_id, .get_item request.item_id,
            .check_stock request.item_id request.quantity], s⟩
      | false =>
        match CartItem.make user_id request.item_id request.quantity with
        | .error e =>
          ⟨.error e,
            [.find_by_id user_id, .get_item request.item_id,
              .check_stock request.item_id request.quantity], s⟩
        | .ok cart_item =>
          let user' := { user with cart_items := user.cart_items ++ [cart_item] }
          let saved := user_repository.save s user'
          ⟨.ok ⟨user'.cart_items.map
              (fun cart_item => ⟨cart_item.item_id, cart_item.quantity⟩)⟩,
            [.find_by_id user_id, .get_item request.item_id,
              .check_stock request.item_id request.quantity, .save user'],
            saved.2⟩

/-- Models `be_task_ca.domain.user.usecases.ListItemsInCartUseCase.execute`:
a pure read mapping the user's cart items to the response shape. -/
def ListItemsInCartUseCase.execute {σ : Type}
    (user_repository : UserRepository σ) (s : σ) (user_id : UUID) :
    AddToCartResponse :=
  ⟨(user_repository.find_cart_items s user_id).map
    (fun cart_item => ⟨cart_item.item_id, cart_item.quantity⟩)⟩

/-! ### Relational repositories (`infra.item/user.sqlalchemy_repository`)

The database session and tables are modelled by explicit table states: a
table is a list of rows in insertion order; `query(...).filter(...).first()`
is the first row satisfying the filter, `.all()` the sublist of rows
satisfying it, `.delete()` removes them, `session.add` appends a row, and
`session.commit` has no further observable effect here.  Uniqueness or
foreign-key constraints of the schema are not enforced by this model, as the
repository code itself never checks them. -/

/-- A row of the `items` table (`ItemModel`). -/
structure ItemRow where
  id : UUID
  name : String
  description : Option String
  price : ℚ
  quantity : Int
deriving Repr, DecidableEq

/-- The `items` table. -/
abbrev ItemTable := List ItemRow

/-- Rebuild a domain `Item` from a row, as the repository's query methods do. -/
def itemOfRow (r : ItemRow) : Item :=
  ⟨r.id, r.name, r.description, r.price, r.quantity⟩

/-- Models `SQLAlchemyItemRepository.save`: build an `ItemModel` from the entity and
`add` it to the session (a plain INSERT — no lookup, no upsert), then return
the input entity unchanged. -/
def sqlItemSave (db : ItemTable) (item : Item) : Item × ItemTable :=
  (item,
    db ++ [⟨item.id, item.name, item.description, item.price, item.quantity⟩])

/-- Models `SQLAlchemyItemRepository.find_by_name`: first row with that name. -/
def sqlItemFindByName (db : ItemTable) (name : String) : Option Item :=
  (db.find? (fun r => r.name == name)).map itemOfRow

/-- Models `SQLAlchemyItemRepository.find_by_id`: first row with that id. -/
def sqlItemFindById (db : ItemTable) (id : UUID) : Option Item :=
  (db.find? (fun r => r.id == id)).map itemOfRow

/-- Models `SQLAlchemyItemRepository.get_all`. -/
def sqlItemGetAll (db : ItemTable) : List Item :=
  db.map itemOfRow

/-- The relational item repository bundled as an `ItemRepository`. -/
def SQLAlchemyItemRepository : ItemRepository ItemTable :=
  ⟨sqlItemSave, sqlItemFindByName, sqlItemFindById, sqlItemGetAll⟩

/-- A row of the `users` table (`UserModel`, scalar columns). -/
structure UserRow where
  id : UUID
  email : String
  first_name : String
  last_name : String
  hashed_password : String
  shipping_address : Option String
deriving Repr, DecidableEq

/-- A row of the `cart_items` table (`CartItemModel`). -/
structure CartItemRow where
  user_id : UUID
  item_id : UUID
  quantity : Int
deriving Repr, DecidableEq

/-- The relational user store: the `users` and `cart_items` tables. -/
structure UserDB where
  users : List UserRow
  cart_items : List CartItemRow
deriving Repr, DecidableEq

/-- The `users` row holding a user's scalar fields. -/
def userRowOf (user : User) : UserRow :=
  ⟨user.id, user.email, user.first_name, user.last_name,
    user.hashed_password, user.shipping_address⟩

/-- The update branch of `SQLAlchemyUserRepository.save`: the `.first()` row
with the user's id has all scalar columns overwritten. -/
def updateFirstUserRow (rows : List UserRow) (user : User) : List UserRow :=
  match rows with
  | [] => []
  | r :: rest =>
    if r.id = user.id then userRowOf user :: rest
    else r :: updateFirstUserRow rest user

/-- Models `SQLAlchemyUserRepository.save`: insert or update the `users` row, then
delete every `cart_items` row with this user's id and insert one row per
entry of `user.cart_items` (each row keeping that entry's own `user_id`). -/
def sqlUserSave (db : UserDB) (user : User) : User × UserDB :=
  let users' :=
    if (db.users.find? (fun r => r.id == user.id)).isNone then
      db.users ++ [userRowOf user]
    else updateFirstUserRow db.users user
  let cart' :=
    db.cart_items.filter (fun r => ! (r.user_id == user.id)) ++
      user.cart_items.map
        (fun cart_item => ⟨cart_item.user_id, cart_item.item_id,
          cart_item.quantity⟩)
  (user, ⟨users', cart'⟩)

/-- Models `SQLAlchemyUserRepository.find_cart_items`: all `cart_items` rows with
this user id, rebuilt as `CartItem` entities. -/
def sqlUserFindCartItems (db : UserDB) (user_id : UUID) : List CartItem :=
  (db.cart_items.filter (fun r => r.user_id == user_id)).map
    (fun r => ⟨r.user_id, r.item_id, r.quantity⟩)

/-- Rebuild a domain `User` from its scalar row plus its cart rows, as the
repository's query methods do. -/
def userOfRow (db : UserDB) (r : UserRow) : User :=
  ⟨r.id, r.email, r.first_name, r.last_name, r.hashed_password,
    r.shipping_address, sqlUserFindCartItems db r.id⟩

/-- Models `SQLAlchemyUserRepository.find_by_id`: first `users` row with that id. -/
def sqlUserFindById (db : UserDB) (user_id : UUID) : Option User :=
  (db.users.find? (fun r => r.id == user_id)).map (userOfRow db)

/-- Models `SQLAlchemyUserRepository.find_by_email`: first `users` row with that
email. -/
def sqlUserFindByEmail (db : UserDB) (email : String) : Option User :=
  (db.users.find? (fun r => r.email == email)).map (userOfRow db)

/-- The relational user repository bundled as a `UserRepository`. -/
def SQLAlchemyUserRepository : UserRepository UserDB :=
  ⟨sqlUserSave, sqlUserFindByEmail, sqlUserFindById, sqlUserFindCartItems⟩

/-- Decidable equality for `Except`, used to evaluate concrete outcomes. -/
instance {ε α : Type} [DecidableEq ε] [DecidableEq α] :
    DecidableEq (Except ε α) := fun a b =>
  match a, b with
  | .error e, .error e' =>
    if h : e = e' then .isTrue (by rw [h]) else
      .isFalse (fun hc => h (by injection hc))
  | .error _, .ok _ => .isFalse (fun hc => Except.noConfusion hc)
  | .ok _, .error _ => .isFalse (fun hc => Except.noConfusion hc)
  | .ok v, .ok v' =>
    if h : v = v' then .isTrue (by rw [h]) else
      .isFalse (fun hc => h (by injection hc))

/-! ### Helper lemmas -/

/-- Looking up the key just inserted into a dict yields the inserted value. -/
theorem dictGet_dictInsert {α : Type} (l : List (UUID × α)) (k : UUID) (v : α) :
    dictGet (dictInsert l k v) k = some v := by
  induction l with
  | nil => simp [dictInsert, dictGet]
  | cons hd tl ih =>
    obtain ⟨k', v'⟩ := hd
    by_cases h : k' = k
    · simp [dictInsert, dictGet, h]
    · simp [dictInsert, dictGet, h, ih]

/-- The number of stored items carrying a given name (in-memory store). -/
def countItemsByName (s : ItemStore) (name : String) : Nat :=
  (dictValues s).countP (fun item => item.name == name)

/-- Inserting an item whose name is fresh yields exactly one stored item of
that name. -/
theorem countItemsByName_dictInsert (s : ItemStore) (k : UUID) (item : Item)
    (h : ∀ it ∈ dictValues s, it.name ≠ item.name) :
    countItemsByName (dictInsert s k item) item.name = 1 := by
  induction s with
  | nil => simp [dictInsert, countItemsByName, dictValues]
  | cons hd tl ih =>
    obtain ⟨k', v'⟩ := hd
    have hv' : v'.name ≠ item.name := h v' (by simp [dictValues])
    by_cases hk : k' = k
    · have h0 : (dictValues tl).countP (fun it => it.name == item.name) = 0 := by
        rw [List.countP_eq_zero]
        intro a ha
        simpa using h a (by simp [dictValues] at ha ⊢; exact Or.inr ha)
      simp only [dictInsert, if_pos hk]
      simp [countItemsByName, dictValues, List.countP_cons, h0]
      intro a b hab
      have : b ∈ dictValues ((k', v') :: tl) := by
        simp [dictValues]
        exact Or.inr ⟨a, hab⟩
      exact h b this
    · simp only [dictInsert, if_neg hk]
      have htl : ∀ it ∈ dictValues tl, it.name ≠ item.name := by
        intro it hit
        exact h it (by simp [dictValues] at hit ⊢; exact Or.inr hit)
      have := ih htl
      simp only [countItemsByName, dictValues, List.map_cons] at this ⊢
      rw [List.countP_cons_of_neg _ _ (by simpa using hv')]
      exact this

/-- The value just inserted is among the stored values. -/
theorem mem_dictValues_dictInsert {α : Type} (l : List (UUID × α)) (k : UUID)
    (v : α) : v ∈ dictValues (dictInsert l k v) := by
  induction l with
  | nil => simp [dictInsert, dictValues]
  | cons hd tl ih =>
    obtain ⟨k', v'⟩ := hd
    by_cases hk : k' = k
    · simp [dictInsert, if_pos hk, dictValues]
    · simp only [dictInsert, if_neg hk]
      simp only [dictValues, List.map_cons, List.mem_cons]
      exact Or.inr ih

/-- After inserting an item, a name lookup for its name succeeds. -/
theorem findByName_dictInsert (s : ItemStore) (k : UUID) (item : Item) :
    ∃ it, inMemoryItemFindByName (dictInsert s k item) item.name = some it := by
  have hmem := mem_dictValues_dictInsert s k item
  have : (List.find? (fun it => it.name == item.name)
      (dictValues (dictInsert s k item))).isSome = true := by
    rw [List.find?_isSome]
    exact ⟨item, hmem, by simp⟩
  obtain ⟨it, hit⟩ := Option.isSome_iff_exists.mp this
  exact ⟨it, hit⟩

/-- An error produced by `Item.make` is one of the two validation messages
(in particular it is never the name-conflict message). -/
theorem itemMake_error_message (id : UUID) (name : String)
    (description : Option String) (price : ℚ) (quantity : Int) (e : String)
    (h : Item.make id name description price quantity = .error e) :
    e = "Price cannot be negative" ∨ e = "Quantity cannot be negative" := by
  unfold Item.make at h
  split_ifs at h
  · exact Or.inl (Except.error.inj h).symm
  · exact Or.inr (Except.error.inj h).symm

/-- Appending an element satisfying `p` to a list in which `find?` fails
makes `find?` return that element. -/
theorem find?_append_singleton {α : Type} (l : List α) (p : α → Bool) (a : α)
    (hnone : l.find? p = none) (ha : p a = true) :
    (l ++ [a]).find? p = some a := by
  induction l with
  | nil => simp [List.find?, ha]
  | cons hd tl ih =>
    by_cases hp : p hd = true
    · rw [List.find?_cons_of_pos _ hp] at hnone
      exact absurd hnone (by simp)
    · rw [List.find?_cons_of_neg _ hp] at hnone
      rw [List.cons_append, List.find?_cons_of_neg _ hp]
      exact ih hnone

/-- After updating the first row holding the user's id, `find?` by that id
returns the updated row. -/
theorem find?_updateFirstUserRow (rows : List UserRow) (user : User)
    (r0 : UserRow)
    (hsome : rows.find? (fun r => r.id == user.id) = some r0) :
    (updateFirstUserRow rows user).find? (fun r => r.id == user.id) =
      some (userRowOf user) := by
  induction rows with
  | nil => simp [List.find?] at hsome
  | cons hd tl ih =>
    by_cases hp : hd.id = user.id
    · simp only [updateFirstUserRow, if_pos hp]
      rw [List.find?_cons_of_pos _ (by simp [userRowOf])]
    · simp only [updateFirstUserRow, if_neg hp]
      rw [List.find?_cons_of_neg _ (by simpa using hp)] at hsome
      rw [List.find?_cons_of_neg _ (by simpa using hp)]
      exact ih hsome

/-- The delete step of the relational user save removes every cart row of
the user: filtering the remainder by the user's id yields nothing. -/
theorem filter_user_of_deleted (l : List CartItemRow) (uid : UUID) :
    (l.filter (fun r => ! (r.user_id == uid))).filter
      (fun r => r.user_id == uid) = [] := by
  induction l with
  | nil => rfl
  | cons hd tl ih =>
    by_cases hh : hd.user_id = uid
    · simp [List.filter_cons, hh, ih]
    · simp [List.filter_cons, hh, ih]

/-- Cart items written as rows and read back through the id filter round
trip, when each cart item carries the owner's id. -/
theorem cartRows_filter_roundtrip (l : List CartItem) (uid : UUID)
    (h : ∀ ci ∈ l, ci.user_id = uid) :
    ((l.map (fun cart_item => (⟨cart_item.user_id, cart_item.item_id,
        cart_item.quantity⟩ : CartItemRow))).filter
      (fun r => r.user_id == uid)).map
        (fun r => (⟨r.user_id, r.item_id, r.quantity⟩ : CartItem)) = l := by
  induction l with
  | nil => rfl
  | cons hd tl ih =>
    have hh : hd.user_id = uid := h hd (by simp)
    have ih' := ih (fun ci hci => h ci (by simp [hci]))
    simp only [List.map_cons, List.filter_cons]
    rw [if_pos (by simpa using hh)]
    simp only [List.map_cons, ih']

/-- After a relational save of a user whose cart items all carry the user's
own id, `find_by_id` returns the saved user and `find_cart_items` its exact
cart — the delete-all-then-insert full replacement. -/
theorem sqlUserSave_roundtrip (db : UserDB) (user : User)
    (h : ∀ cart_item ∈ user.cart_items, cart_item.user_id = user.id) :
    sqlUserFindById (sqlUserSave db user).2 user.id = some user ∧
    sqlUserFindCartItems (sqlUserSave db user).2 user.id = user.cart_items := by
  have hcart : sqlUserFindCartItems (sqlUserSave db user).2 user.id =
      user.cart_items := by
    show ((db.cart_items.filter (fun r => ! (r.user_id == user.id)) ++
        user.cart_items.map (fun cart_item => (⟨cart_item.user_id,
          cart_item.item_id, cart_item.quantity⟩ : CartItemRow))).filter
        (fun r => r.user_id == user.id)).map
        (fun r => (⟨r.user_id, r.item_id, r.quantity⟩ : CartItem)) =
      user.cart_items
    rw [List.filter_append, filter_user_of_deleted, List.nil_append]
    exact cartRows_filter_roundtrip user.cart_items user.id h
  have husers : ((sqlUserSave db user).2).users.find?
      (fun r => r.id == user.id) = some (userRowOf user) := by
    show (if (db.users.find? (fun r => r.id == user.id)).isNone then
        db.users ++ [userRowOf user]
      else updateFirstUserRow db.users user).find?
        (fun r => r.id == user.id) = some (userRowOf user)
    cases hf : db.users.find? (fun r => r.id == user.id) with
    | none =>
      rw [if_pos (by simp [hf])]
      exact find?_append_singleton db.users _ _ hf (by simp [userRowOf])
    | some r0 =>
      rw [if_neg (by simp [hf])]
      exact find?_updateFirstUserRow db.users user r0 hf
  refine ⟨?_, hcart⟩
  show (((sqlUserSave db user).2).users.find? (fun r => r.id == user.id)).map
      (userOfRow (sqlUserSave db user).2) = some user
  rw [husers]
  show some (userOfRow (sqlUserSave db user).2 (userRowOf user)) = some user
  have hback : userOfRow (sqlUserSave db user).2 (userRowOf user) = user := by
    show (⟨user.id, user.email, user.first_name, user.last_name,
      user.hashed_password, user.shipping_address,
      sqlUserFindCartItems (sqlUserSave db user).2 user.id⟩ : User) = user
    rw [hcart]
  rw [hback]

/-- Relational item save is a plain insert: when the item's id is not yet
present, `find_by_id` after `save` returns the item. -/
theorem sqlItemSave_roundtrip (db : ItemTable) (item : Item)
    (hfresh : ∀ r ∈ db, r.id ≠ item.id) :
    sqlItemFindById (sqlItemSave db item).2 item.id = some item := by
  have hnone : db.find? (fun r => r.id == item.id) = none := by
    rw [List.find?_eq_none]
    intro r hr
    simpa using hfresh r hr
  show ((db ++ [(⟨item.id, item.name, item.description, item.price,
      item.quantity⟩ : ItemRow)]).find? (fun r => r.id == item.id)).map
    itemOfRow = some item
  rw [find?_append_singleton db _ _ hnone (by simp)]
  rfl

/-! ### Claims -/

/-- Claim C1: `AddItemToCartUseCase.execute` short-circuits at the first
failed check and performs zero writes on any failure.  For every repository
implementation, state, item service and request: when the user is absent the
only call issued is `find_by_id` (so `get_item`, `check_stock` and `save` are
never invoked); when the user exists but the service reports the item absent
the calls are exactly `find_by_id` then `get_item` (no `check_stock`, no
`save`); when stock is insufficient no `save` is issued; when the requested
item id is already in the cart no `save` is issued; and on every error
outcome whatsoever no `save` is issued and the repository state is
unchanged. -/
theorem addItemToCart_short_circuits {σ : Type} (R : UserRepository σ) (s : σ)
    (svc : ItemService) (user_id : UUID) (request : AddToCartRequest)
    (r : CartExec σ)
    (hr : r = AddItemToCartUseCase.execute R s svc user_id request) :
    (R.find_by_id s user_id = none →
      r.calls = [.find_by_id user_id]) ∧
    (∀ user, R.find_by_id s user_id = some user →
      svc.get_item request.item_id = none →
      r.calls = [.find_by_id user_id, .get_item request.item_id]) ∧
    (∀ user, R.find_by_id s user_id = some user →
      svc.check_stock request.item_id request.quantity = false →
      r.calls.filter CartCall.isSave = []) ∧
    (∀ user, R.find_by_id s user_id = some user →
      user.cart_items.any
        (fun cart_item => cart_item.item_id == request.item_id) = true →
      r.calls.filter CartCall.isSave = []) ∧
    (∀ e, r.result = .error e →
      r.calls.filter CartCall.isSave = [] ∧ r.state = s) := by
  subst hr
  unfold AddItemToCartUseCase.execute
  cases hfind : R.find_by_id s user_id with
  | none => simp [CartCall.isSave]
  | some user =>
    cases hget : svc.get_item request.item_id with
    | none => simp [CartCall.isSave]
    | some d =>
      cases hstock : svc.check_stock request.item_id request.quantity with
      | false => simp [CartCall.isSave]
      | true =>
        cases hdup : user.cart_items.any
            (fun cart_item => cart_item.item_id == request.item_id) with
        | true => simp only [hdup]; simp [CartCall.isSave]
        | false =>
          simp only [hdup]
          cases hmk : CartItem.make user_id request.item_id request.quantity with
          | error e => simp only [hmk]; simp [CartCall.isSave]
          | ok cart_item =>
            simp only [hmk]; simp [CartCall.isSave]; simpa using hdup

/-- Witness for C1 at a concrete input: with an empty in-memory store the
user `1` is absent, and the use case issues exactly the `find_by_id` call. -/
theorem addItemToCart_short_circuits_witness :
    InMemoryUserRepository.find_by_id ([] : UserStore) 1 = none ∧
    (AddItemToCartUseCase.execute InMemoryUserRepository ([] : UserStore)
      MockItemService 1 ⟨5, 2⟩).calls = [.find_by_id 1] :=
  ⟨rfl,
    (addItemToCart_short_circuits InMemoryUserRepository [] MockItemService
      1 ⟨5, 2⟩ _ rfl).1 rfl⟩

/-- Counterexample to claim C2 as stated: the claim's hypotheses — user
found, requested item id not in the cart, item service reports the item
present and `check_stock` true — all hold for the request with quantity `0`
against the mock service, yet the use case does not append a cart line and
return the cart: it raises `ValueError("Quantity must be positive")` at
`CartItem` construction and performs no save. -/
theorem addItemToCart_success_counterexample :
    InMemoryUserRepository.find_by_id
        [(2, ⟨2, "jane@example.com", "Jane", "Doe", "h", none, []⟩)] 2 =
      some ⟨2, "jane@example.com", "Jane", "Doe", "h", none, []⟩ ∧
    MockItemService.get_item 5 = some ⟨5, "Mock Item", 12⟩ ∧
    MockItemService.check_stock 5 0 = true ∧
    (AddItemToCartUseCase.execute InMemoryUserRepository
        [(2, ⟨2, "jane@example.com", "Jane", "Doe", "h", none, []⟩)]
        MockItemService 2 ⟨5, 0⟩).result =
      .error "Quantity must be positive" ∧
    (AddItemToCartUseCase.execute InMemoryUserRepository
        [(2, ⟨2, "jane@example.com", "Jane", "Doe", "h", none, []⟩)]
        MockItemService 2 ⟨5, 0⟩).calls.filter CartCall.isSave = [] := by
  decide

/-- Claim C2 (amended: the requested quantity must additionally be positive,
as `CartItem` construction otherwise rejects the request): for every user
that exists with a cart not containing the requested item id, when the item
service reports the item present and sufficient stock and the requested
quantity is positive, the use case appends exactly one new
`CartItem(user_id, item_id, quantity)` to the cart, persists the whole user
via the repository `save`, and returns the resulting full cart contents; in
particular a user with an empty cart ends up with exactly the one new
line. -/
theorem addItemToCart_success_postcondition {σ : Type} (R : UserRepository σ)
    (s : σ) (svc : ItemService) (user_id : UUID) (request : AddToCartRequest)
    (user : User) (d : ItemDetails)
    (hfind : R.find_by_id s user_id = some user)
    (hget : svc.get_item request.item_id = some d)
    (hstock : svc.check_stock request.item_id request.quantity = true)
    (hnew : ∀ cart_item ∈ user.cart_items, cart_item.item_id ≠ request.item_id)
    (hq : 0 < request.quantity) :
    (AddItemToCartUseCase.execute R s svc user_id request).result =
      .ok ⟨((user.cart_items ++
          [⟨user_id, request.item_id, request.quantity⟩] : List CartItem)).map
        (fun cart_item =>
          (⟨cart_item.item_id, cart_item.quantity⟩ : AddToCartRequest))⟩ ∧
    (AddItemToCartUseCase.execute R s svc user_id request).calls =
      [.find_by_id user_id, .get_item request.item_id,
        .check_stock request.item_id request.quantity,
        .save { user with cart_items :=
          user.cart_items ++ [⟨user_id, request.item_id, request.quantity⟩] }] ∧
    (AddItemToCartUseCase.execute R s svc user_id request).state =
      (R.save s { user with cart_items :=
        user.cart_items ++ [⟨user_id, request.item_id, request.quantity⟩] }).2 ∧
    (user.cart_items = [] →
      (AddItemToCartUseCase.execute R s svc user_id request).result =
        .ok ⟨[⟨request.item_id, request.quantity⟩]⟩) := by
  have hdup : user.cart_items.any
      (fun cart_item => cart_item.item_id == request.item_id) = false := by
    rw [List.any_eq_false]
    intro x hx
    simpa using hnew x hx
  have hmk : CartItem.make user_id request.item_id request.quantity =
      .ok ⟨user_id, request.item_id, request.quantity⟩ := by
    unfold CartItem.make
    rw [if_neg (by omega)]
  unfold AddItemToCartUseCase.execute
  simp only [hfind, hget, hstock, hdup, hmk]
  refine ⟨trivial, trivial, trivial, fun hemp => ?_⟩
  rw [hemp]
  rfl

/-- Witness for C2 (amended) at a concrete input: a stored user `3` with an
empty cart, the mock item service, and the request `(item 9, quantity 2)`
yield a cart with exactly that one line. -/
theorem addItemToCart_success_postcondition_witness :
    InMemoryUserRepository.find_by_id
        [(3, ⟨3, "w@x.y", "A", "B", "h", none, []⟩)] 3 =
      some ⟨3, "w@x.y", "A", "B", "h", none, []⟩ ∧
    MockItemService.get_item 9 = some ⟨9, "Mock Item", 12⟩ ∧
    MockItemService.check_stock 9 2 = true ∧
    (0 : Int) < 2 ∧
    (AddItemToCartUseCase.execute InMemoryUserRepository
        [(3, ⟨3, "w@x.y", "A", "B", "h", none, []⟩)] MockItemService 3
        ⟨9, 2⟩).result = .ok ⟨[⟨9, 2⟩]⟩ := by
  refine ⟨rfl, rfl, rfl, by decide, ?_⟩
  exact (addItemToCart_success_postcondition InMemoryUserRepository
    [(3, ⟨3, "w@x.y", "A", "B", "h", none, []⟩)] MockItemService 3 ⟨9, 2⟩
    ⟨3, "w@x.y", "A", "B", "h", none, []⟩ ⟨9, "Mock Item", 12⟩ rfl rfl rfl
    (by decide) (by decide)).2.2.2 rfl

/-- Counterexample to claim C3 as stated: on the item-creation request
`{name: "Widget", price: -1, quantity: 5}` (negative price) against the
empty in-memory store, `CreateItemUseCase.execute` does invoke the
repository's `find_by_name` — the name lookup is its very first action, and
only afterwards does `Item` construction fail — so "`find_by_name` is never
invoked" is false (only `save` is never reached). -/
theorem createItem_validation_counterexample :
    ((⟨"Widget", none, -1, 5⟩ : CreateItemRequest).price < 0) ∧
    ItemRepoCall.find_by_name "Widget" ∈
      (CreateItemUseCase.execute InMemoryItemRepository ([] : ItemStore)
        ⟨"Widget", none, -1, 5⟩ 7).calls ∧
    (CreateItemUseCase.execute InMemoryItemRepository ([] : ItemStore)
        ⟨"Widget", none, -1, 5⟩ 7).result = .error "Price cannot be negative" := by
  decide

/-- Claim C3 (amended: the name lookup `find_by_name` is always invoked
first; what holds is that construction fails before any write): for every
item-creation request with `price < 0` or `quantity < 0`, `execute` issues
exactly the one `find_by_name` call — never `save` — leaves the repository
state unchanged, and fails. -/
theorem createItem_validation_before_save {σ : Type}
    (R : ItemRepository σ) (s : σ) (request : CreateItemRequest)
    (new_id : UUID)
    (hbad : request.price < 0 ∨ request.quantity < 0) :
    (CreateItemUseCase.execute R s request new_id).calls =
      [.find_by_name request.name] ∧
    (CreateItemUseCase.execute R s request new_id).state = s ∧
    ∃ e, (CreateItemUseCase.execute R s request new_id).result = .error e := by
  have hmk : ∃ e, Item.make new_id request.name request.description
      request.price request.quantity = .error e := by
    unfold Item.make
    by_cases hp : request.price < 0
    · exact ⟨_, by rw [if_pos hp]⟩
    · have hq : request.quantity < 0 := hbad.resolve_left hp
      exact ⟨_, by rw [if_neg hp, if_pos hq]⟩
  unfold CreateItemUseCase.execute
  obtain ⟨e, he⟩ := hmk
  cases hfindn : R.find_by_name s request.name with
  | some it => exact ⟨rfl, rfl, _, rfl⟩
  | none =>
    rw [he]
    exact ⟨rfl, rfl, e, rfl⟩

/-- Witness for C3 (amended) at a concrete input: the request
`{name: "Gadget", price: -2, quantity: 3}` on the empty store issues only
the name lookup, leaves the store empty and fails. -/
theorem createItem_validation_before_save_witness :
    ((⟨"Gadget", none, -2, 3⟩ : CreateItemRequest).price < 0 ∨
      (⟨"Gadget", none, -2, 3⟩ : CreateItemRequest).quantity < 0) ∧
    ((CreateItemUseCase.execute InMemoryItemRepository ([] : ItemStore)
        ⟨"Gadget", none, -2, 3⟩ 4).calls = [.find_by_name "Gadget"] ∧
      (CreateItemUseCase.execute InMemoryItemRepository ([] : ItemStore)
        ⟨"Gadget", none, -2, 3⟩ 4).state = [] ∧
      ∃ e, (CreateItemUseCase.execute InMemoryItemRepository ([] : ItemStore)
        ⟨"Gadget", none, -2, 3⟩ 4).result = .error e) :=
  ⟨Or.inl (by decide),
    createItem_validation_before_save InMemoryItemRepository [] _ 4
      (Or.inl (by decide))⟩

/-- Counterexample to claim C4 as stated: for the add-to-cart request with
quantity `0` against a stored user and the mock service, the rejection does
happen at `CartItem` construction, but *after* the repository interaction:
the repository read `find_by_id` (and both service calls) are issued first,
as the call trace shows. -/
theorem addItemToCart_nonpositive_counterexample :
    ((⟨6, 0⟩ : AddToCartRequest).quantity ≤ 0) ∧
    (AddItemToCartUseCase.execute InMemoryUserRepository
        [(4, ⟨4, "c@d.e", "C", "D", "h", none, []⟩)] MockItemService 4
        ⟨6, 0⟩).calls = [.find_by_id 4, .get_item 6, .check_stock 6 0] ∧
    (AddItemToCartUseCase.execute InMemoryUserRepository
        [(4, ⟨4, "c@d.e", "C", "D", "h", none, []⟩)] MockItemService 4
        ⟨6, 0⟩).result = .error "Quantity must be positive" := by
  decide

/-- Claim C4 (amended: the rejection precedes any repository *write*, not
any repository interaction — the `find_by_id` read and the service calls
come first): for every request with non-positive quantity, `execute` never
issues a `save`, leaves the repository state unchanged and fails; and when
the user exists, the item is reported present, the stock check passes and
the item is not already in the cart, the failure is precisely the
`CartItem`-construction rejection `"Quantity must be positive"`. -/
theorem addItemToCart_nonpositive_quantity {σ : Type} (R : UserRepository σ)
    (s : σ) (svc : ItemService) (user_id : UUID) (request : AddToCartRequest)
    (hq : request.quantity ≤ 0) :
    ((AddItemToCartUseCase.execute R s svc user_id request).calls.filter
        CartCall.isSave = [] ∧
      (AddItemToCartUseCase.execute R s svc user_id request).state = s ∧
      ∃ e, (AddItemToCartUseCase.execute R s svc user_id request).result =
        .error e) ∧
    (∀ user, R.find_by_id s user_id = some user →
      (svc.get_item request.item_id).isSome = true →
      svc.check_stock request.item_id request.quantity = true →
      (∀ cart_item ∈ user.cart_items,
        cart_item.item_id ≠ request.item_id) →
      (AddItemToCartUseCase.execute R s svc user_id request).result =
        .error "Quantity must be positive") := by
  have hmk : CartItem.make user_id request.item_id request.quantity =
      .error "Quantity must be positive" := by
    unfold CartItem.make
    rw [if_pos hq]
  unfold AddItemToCartUseCase.execute
  cases hfind : R.find_by_id s user_id with
  | none => exact ⟨⟨rfl, rfl, _, rfl⟩, by simp⟩
  | some user =>
    cases hget : svc.get_item request.item_id with
    | none => exact ⟨⟨rfl, rfl, _, rfl⟩, by simp⟩
    | some d =>
      cases hstock : svc.check_stock request.item_id request.quantity with
      | false =>
        refine ⟨⟨rfl, rfl, _, rfl⟩, ?_⟩
        intro user' _ _ hst _
        exact absurd hst (by simp)
      | true =>
        cases hdup : user.cart_items.any
            (fun cart_item => cart_item.item_id == request.item_id) with
        | true =>
          simp only [hdup]
          refine ⟨⟨rfl, trivial, _, rfl⟩, ?_⟩
          intro user' huser' _ _ hnone
          rw [List.any_eq_true] at hdup
          obtain ⟨x, hx, hbeq⟩ := hdup
          have huu : user' = user := (Option.some.inj huser').symm
          subst huu
          exact absurd (by simpa using hbeq) (hnone x hx)
        | false =>
          simp only [hdup, hmk]
          exact ⟨⟨rfl, trivial, _, rfl⟩, fun user' _ _ _ _ => trivial⟩

/-- Witness for C4 (amended) at a concrete input: quantity `0` for stored
user `4` performs no save, leaves the store unchanged, and is rejected with
the construction error. -/
theorem addItemToCart_nonpositive_quantity_witness :
    ((⟨6, 0⟩ : AddToCartRequest).quantity ≤ 0) ∧
    (AddItemToCartUseCase.execute InMemoryUserRepository
        [(8, ⟨8, "e@f.g", "E", "F", "h", none, []⟩)] MockItemService 8
        ⟨6, 0⟩).calls.filter CartCall.isSave = [] ∧
    (AddItemToCartUseCase.execute InMemoryUserRepository
        [(8, ⟨8, "e@f.g", "E", "F", "h", none, []⟩)] MockItemService 8
        ⟨6, 0⟩).result = .error "Quantity must be positive" := by
  refine ⟨by decide,
    (addItemToCart_nonpositive_quantity InMemoryUserRepository
      [(8, ⟨8, "e@f.g", "E", "F", "h", none, []⟩)] MockItemService 8 ⟨6, 0⟩
      (by decide)).1.1,
    (addItemToCart_nonpositive_quantity InMemoryUserRepository
      [(8, ⟨8, "e@f.g", "E", "F", "h", none, []⟩)] MockItemService 8 ⟨6, 0⟩
      (by decide)).2 ⟨8, "e@f.g", "E", "F", "h", none, []⟩ rfl rfl rfl
      (by decide)⟩

/-- Claim C5: `CreateItemUseCase.execute` fails with the conflict error
exactly when the repository already holds an item with the requested name,
and on the conflict path storage is not mutated (no `save` call, state
unchanged); after two calls with the same name starting from a store without
that name (and a valid price/quantity), the first succeeds, the second fails
with the conflict error, and the in-memory repository contains exactly one
item with that name. -/
theorem createItem_name_conflict :
    (∀ (σ : Type) (R : ItemRepository σ) (s : σ) (request : CreateItemRequest)
        (new_id : UUID),
      ((CreateItemUseCase.execute R s request new_id).result =
          .error "An item with this name already exists" ↔
        R.find_by_name s request.name ≠ none) ∧
      (R.find_by_name s request.name ≠ none →
        (CreateItemUseCase.execute R s request new_id).state = s ∧
        (CreateItemUseCase.execute R s request new_id).calls.filter
          ItemRepoCall.isSave = [])) ∧
    (∀ (s : ItemStore) (request : CreateItemRequest) (id1 id2 : UUID),
      inMemoryItemFindByName s request.name = none →
      0 ≤ request.price → 0 ≤ request.quantity →
      (CreateItemUseCase.execute InMemoryItemRepository s request id1).result =
        .ok ⟨request.name, request.description, request.price,
          request.quantity, id1⟩ ∧
      (CreateItemUseCase.execute InMemoryItemRepository
          (CreateItemUseCase.execute InMemoryItemRepository s request
            id1).state request id2).result =
        .error "An item with this name already exists" ∧
      countItemsByName (CreateItemUseCase.execute InMemoryItemRepository
          (CreateItemUseCase.execute InMemoryItemRepository s request
            id1).state request id2).state request.name = 1) := by
  constructor
  · intro σ R s request new_id
    unfold CreateItemUseCase.execute
    cases hfindn : R.find_by_name s request.name with
    | some it =>
      exact ⟨iff_of_true rfl (by simp), fun _ => ⟨rfl, rfl⟩⟩
    | none =>
      refine ⟨?_, fun hne => absurd rfl hne⟩
      cases hmk : Item.make new_id request.name request.description
          request.price request.quantity with
      | error e =>
        simp only [hmk]
        refine iff_of_false (fun hc => ?_) (fun hne => hne rfl)
        have he := Except.error.inj hc
        rcases itemMake_error_message _ _ _ _ _ _ hmk with h | h <;>
          simp [h] at he
      | ok item =>
        simp only [hmk]
        exact iff_of_false (by simp) (fun hne => hne rfl)
  · intro s request id1 id2 hnone hp hq
    have hmk : Item.make id1 request.name request.description request.price
        request.quantity = .ok ⟨id1, request.name, request.description,
          request.price, request.quantity⟩ := by
      unfold Item.make
      rw [if_neg (not_lt.mpr hp), if_neg (not_lt.mpr hq)]
    have hnone' : InMemoryItemRepository.find_by_name s request.name = none :=
      hnone
    have hstate : (CreateItemUseCase.execute InMemoryItemRepository s request
        id1).state = dictInsert s id1 ⟨id1, request.name, request.description,
          request.price, request.quantity⟩ := by
      unfold CreateItemUseCase.execute
      simp only [hnone', hmk]
      rfl
    have hfresh : ∀ it ∈ dictValues s, it.name ≠ request.name := by
      intro it hit
      have := List.find?_eq_none.mp hnone it hit
      simpa using this
    obtain ⟨it2, hit2⟩ := findByName_dictInsert s id1
      ⟨id1, request.name, request.description, request.price, request.quantity⟩
    have hit2' : InMemoryItemRepository.find_by_name
        (dictInsert s id1 ⟨id1, request.name, request.description,
          request.price, request.quantity⟩) request.name = some it2 := hit2
    refine ⟨?_, ?_, ?_⟩
    · unfold CreateItemUseCase.execute
      simp only [hnone', hmk]
      rfl
    · rw [hstate]
      unfold CreateItemUseCase.execute
      simp only [hit2']
    · rw [hstate]
      unfold CreateItemUseCase.execute
      simp only [hit2']
      exact countItemsByName_dictInsert s id1 _ hfresh

/-- Witness for C5 at a concrete input: creating `"Widget"` twice on the
empty store — the first call succeeds, the second hits the conflict error,
and exactly one `"Widget"` item is stored. -/
theorem createItem_name_conflict_witness :
    inMemoryItemFindByName ([] : ItemStore) "Widget" = none ∧
    (0 : ℚ) ≤ 10 ∧ (0 : Int) ≤ 5 ∧
    ((CreateItemUseCase.execute InMemoryItemRepository ([] : ItemStore)
        ⟨"Widget", none, 10, 5⟩ 7).result =
      .ok ⟨"Widget", none, 10, 5, 7⟩ ∧
    (CreateItemUseCase.execute InMemoryItemRepository
        (CreateItemUseCase.execute InMemoryItemRepository ([] : ItemStore)
          ⟨"Widget", none, 10, 5⟩ 7).state ⟨"Widget", none, 10, 5⟩ 8).result =
      .error "An item with this name already exists" ∧
    countItemsByName (CreateItemUseCase.execute InMemoryItemRepository
        (CreateItemUseCase.execute InMemoryItemRepository ([] : ItemStore)
          ⟨"Widget", none, 10, 5⟩ 7).state ⟨"Widget", none, 10, 5⟩ 8).state
      "Widget" = 1) :=
  ⟨rfl, by decide, by decide,
    createItem_name_conflict.2 [] ⟨"Widget", none, 10, 5⟩ 7 8 rfl
      (by decide) (by decide)⟩

/-- Counterexample to claim C6 as stated (relational implementation):
saving user `1` whose single cart line carries `user_id = 2` (users `1` and
`2` both exist, so even the schema's foreign keys would admit the row)
stores that line under user `2`; the stored cart-item collection for user
`1` is empty and does not equal `user.cart_items` — the claim's "for every
user value" fails. -/
theorem userRepository_save_counterexample :
    sqlUserFindCartItems (sqlUserSave
        ⟨[⟨1, "u1@e.com", "U", "One", "h", none⟩,
          ⟨2, "u2@e.com", "U", "Two", "h", none⟩], []⟩
        ⟨1, "u1@e.com", "U", "One", "h", none, [⟨2, 5, 1⟩]⟩).2 1 = [] ∧
    (⟨1, "u1@e.com", "U", "One", "h", none, [⟨2, 5, 1⟩]⟩ : User).cart_items ≠
      [] ∧
    sqlUserFindById (sqlUserSave
        ⟨[⟨1, "u1@e.com", "U", "One", "h", none⟩,
          ⟨2, "u2@e.com", "U", "Two", "h", none⟩], []⟩
        ⟨1, "u1@e.com", "U", "One", "h", none, [⟨2, 5, 1⟩]⟩).2 1 =
      some ⟨1, "u1@e.com", "U", "One", "h", none, []⟩ := by
  decide

/-- Claim C6 (amended: for the relational implementation the user's cart
items must carry the user's own id — true of every cart the use cases build;
the in-memory implementation satisfies it unconditionally): `save` is a
full-replace upsert by id — after `save(user)`, `find_by_id user.id` returns
exactly `user` (all scalar fields and the cart-item collection), and
`find_cart_items user.id` returns exactly `user.cart_items`, regardless of
what was previously stored for that id. -/
theorem userRepository_save_full_replace :
    (∀ (s : UserStore) (user : User),
      inMemoryUserFindById (inMemoryUserSave s user).2 user.id = some user ∧
      inMemoryUserFindCartItems (inMemoryUserSave s user).2 user.id =
        user.cart_items) ∧
    (∀ (db : UserDB) (user : User),
      (∀ cart_item ∈ user.cart_items, cart_item.user_id = user.id) →
      sqlUserFindById (sqlUserSave db user).2 user.id = some user ∧
      sqlUserFindCartItems (sqlUserSave db user).2 user.id =
        user.cart_items) := by
  constructor
  · intro s user
    have hget : dictGet (dictInsert s user.id user) user.id = some user :=
      dictGet_dictInsert s user.id user
    refine ⟨hget, ?_⟩
    show (match dictGet (dictInsert s user.id user) user.id with
      | some u => u.cart_items
      | none => []) = user.cart_items
    rw [hget]
  · intro db user h
    exact sqlUserSave_roundtrip db user h

/-- Witness for C6 (amended) at a concrete input: saving user `9` (one cart
line owned by `9`) over a store that previously held a different cart for
`9` fully replaces it, in both implementations. -/
theorem userRepository_save_full_replace_witness :
    (∀ cart_item ∈ ([⟨9, 5, 2⟩] : List CartItem), cart_item.user_id = 9) ∧
    inMemoryUserFindCartItems (inMemoryUserSave
        [(9, ⟨9, "u9@e.com", "U", "Nine", "h", none, [⟨9, 1, 1⟩, ⟨9, 2, 1⟩]⟩)]
        ⟨9, "u9@e.com", "U", "Nine", "h", none, [⟨9, 5, 2⟩]⟩).2 9 =
      [⟨9, 5, 2⟩] ∧
    sqlUserFindById (sqlUserSave
        ⟨[⟨9, "u9@e.com", "U", "Nine", "h", none⟩], [⟨9, 1, 1⟩, ⟨9, 2, 1⟩]⟩
        ⟨9, "u9@e.com", "U", "Nine", "h", none, [⟨9, 5, 2⟩]⟩).2 9 =
      some ⟨9, "u9@e.com", "U", "Nine", "h", none, [⟨9, 5, 2⟩]⟩ := by
  refine ⟨by decide, ?_, ?_⟩
  · exact (userRepository_save_full_replace.1
      [(9, ⟨9, "u9@e.com", "U", "Nine", "h", none, [⟨9, 1, 1⟩, ⟨9, 2, 1⟩]⟩)]
      ⟨9, "u9@e.com", "U", "Nine", "h", none, [⟨9, 5, 2⟩]⟩).2
  · exact (userRepository_save_full_replace.2
      ⟨[⟨9, "u9@e.com", "U", "Nine", "h", none⟩], [⟨9, 1, 1⟩, ⟨9, 2, 1⟩]⟩
      ⟨9, "u9@e.com", "U", "Nine", "h", none, [⟨9, 5, 2⟩]⟩ (by decide)).1

/-- Counterexample to claim C7 as stated (relational item repository): its
`save` is a plain INSERT with no upsert; saving an item whose id is already
present leaves the earlier row first in the table, so `find_by_id` returns
the old row, not a value equal to the saved item. -/
theorem repository_roundtrip_counterexample :
    sqlItemFindById (sqlItemSave [⟨7, "Old", none, 1, 1⟩]
        ⟨7, "New", none, 2, 2⟩).2 7 = some ⟨7, "Old", none, 1, 1⟩ ∧
    (⟨7, "Old", none, 1, 1⟩ : Item) ≠ ⟨7, "New", none, 2, 2⟩ := by
  decide

/-- Claim C7 (amended: the in-memory repositories satisfy the round trip for
every entity unconditionally; the relational item repository requires the
id to be fresh — its save is a plain insert — and the relational user
repository requires the cart items to carry the user's own id): `save(x)`
followed by `find_by_id x.id` yields a value equal to `x` in all observable
fields, including nested cart items for users. -/
theorem repository_roundtrip :
    (∀ (s : ItemStore) (item : Item),
      inMemoryItemFindById (inMemoryItemSave s item).2 item.id = some item) ∧
    (∀ (s : UserStore) (user : User),
      inMemoryUserFindById (inMemoryUserSave s user).2 user.id = some user) ∧
    (∀ (db : ItemTable) (item : Item), (∀ r ∈ db, r.id ≠ item.id) →
      sqlItemFindById (sqlItemSave db item).2 item.id = some item) ∧
    (∀ (db : UserDB) (user : User),
      (∀ cart_item ∈ user.cart_items, cart_item.user_id = user.id) →
      sqlUserFindById (sqlUserSave db user).2 user.id = some user) := by
  refine ⟨?_, ?_, ?_, ?_⟩
  · intro s item
    exact dictGet_dictInsert s item.id item
  · intro s user
    exact dictGet_dictInsert s user.id user
  · intro db item hfresh
    exact sqlItemSave_roundtrip db item hfresh
  · intro db user h
    exact (sqlUserSave_roundtrip db user h).1

/-- Witness for C7 (amended) at concrete inputs: an item round trips through
the in-memory store and through the relational table (fresh id), and a user
with one owned cart line round trips through the in-memory store. -/
theorem repository_roundtrip_witness :
    (∀ r ∈ ([⟨1, "A", none, 1, 1⟩] : ItemTable), r.id ≠ 3) ∧
    sqlItemFindById (sqlItemSave [⟨1, "A", none, 1, 1⟩]
        ⟨3, "B", none, 2, 2⟩).2 3 = some ⟨3, "B", none, 2, 2⟩ ∧
    inMemoryItemFindById (inMemoryItemSave ([] : ItemStore)
        ⟨4, "C", none, 1, 1⟩).2 4 = some ⟨4, "C", none, 1, 1⟩ ∧
    inMemoryUserFindById (inMemoryUserSave ([] : UserStore)
        ⟨6, "u6@e.com", "U", "Six", "h", none, [⟨6, 2, 1⟩]⟩).2 6 =
      some ⟨6, "u6@e.com", "U", "Six", "h", none, [⟨6, 2, 1⟩]⟩ := by
  refine ⟨by decide, ?_, ?_, ?_⟩
  · exact repository_roundtrip.2.2.1 [⟨1, "A", none, 1, 1⟩]
      ⟨3, "B", none, 2, 2⟩ (by decide)
  · exact repository_roundtrip.1 [] ⟨4, "C", none, 1, 1⟩
  · exact repository_roundtrip.2.1 []
      ⟨6, "u6@e.com", "U", "Six", "h", none, [⟨6, 2, 1⟩]⟩

/-- Claim C8: `find_cart_items` and `ListItemsInCartUseCase.execute` are
total functions (they can only answer, never fail) and answer the empty
list both for a non-existent user and for an existing user with no cart
items; in particular the list use case returns an empty item list, not an
error, for a non-existent user. -/
theorem listItemsInCart_total :
    (∀ (s : UserStore) (user_id : UUID),
      inMemoryUserFindById s user_id = none →
        inMemoryUserFindCartItems s user_id = [] ∧
        ListItemsInCartUseCase.execute InMemoryUserRepository s user_id =
          ⟨[]⟩) ∧
    (∀ (s : UserStore) (user_id : UUID) (user : User),
      inMemoryUserFindById s user_id = some user → user.cart_items = [] →
        inMemoryUserFindCartItems s user_id = [] ∧
        ListItemsInCartUseCase.execute InMemoryUserRepository s user_id =
          ⟨[]⟩) := by
  have hexec : ∀ (s : UserStore) (user_id : UUID),
      ListItemsInCartUseCase.execute InMemoryUserRepository s user_id =
        ⟨(inMemoryUserFindCartItems s user_id).map
          (fun cart_item => ⟨cart_item.item_id, cart_item.quantity⟩)⟩ :=
    fun s user_id => rfl
  constructor
  · intro s user_id hnone
    have hfc : inMemoryUserFindCartItems s user_id = [] := by
      show (match dictGet s user_id with
        | some user => user.cart_items
        | none => []) = []
      rw [show dictGet s user_id = none from hnone]
    refine ⟨hfc, ?_⟩
    rw [hexec, hfc]
    rfl
  · intro s user_id user hsome hemp
    have hfc : inMemoryUserFindCartItems s user_id = [] := by
      show (match dictGet s user_id with
        | some user => user.cart_items
        | none => []) = []
      rw [show dictGet s user_id = some user from hsome]
      exact hemp
    refine ⟨hfc, ?_⟩
    rw [hexec, hfc]
    rfl

/-- Witness for C8 at a concrete input: a store holding only user `1`; for
the absent user `2` both the repository read and the use case answer the
empty list. -/
theorem listItemsInCart_total_witness :
    inMemoryUserFindById [(1, ⟨1, "l@m.n", "L", "M", "h", none, []⟩)] 2 =
      none ∧
    (inMemoryUserFindCartItems
        [(1, ⟨1, "l@m.n", "L", "M", "h", none, []⟩)] 2 = [] ∧
      ListItemsInCartUseCase.execute InMemoryUserRepository
        [(1, ⟨1, "l@m.n", "L", "M", "h", none, []⟩)] 2 = ⟨[]⟩) :=
  ⟨rfl, listItemsInCart_total.1 [(1, ⟨1, "l@m.n", "L", "M", "h", none, []⟩)]
    2 rfl⟩

/-- An error produced by `CartItem.make` can only be the quantity
message. -/
theorem cartItemMake_error_message (user_id item_id : UUID)
    (quantity : Int) (e : String)
    (h : CartItem.make user_id item_id quantity = .error e) :
    e = "Quantity must be positive" := by
  unfold CartItem.make at h
  split_ifs at h
  exact (Except.error.inj h).symm

/-- Claim C10: the mock item service never reports absence — `get_item`
always answers the fixed item with quantity 12, `check_stock` holds exactly
when the requested quantity is at most 12; consequently, with the mock wired
in, `AddItemToCartUseCase.execute` can never fail with the
item-does-not-exist error, and it fails with the insufficient-stock error
exactly when the user exists and the requested quantity exceeds 12. -/
theorem mockItemService_behavior :
    (∀ item_id : UUID, MockItemService.get_item item_id =
      some ⟨item_id, "Mock Item", 12⟩) ∧
    (∀ (item_id : UUID) (quantity : Int),
      MockItemService.check_stock item_id quantity = true ↔ quantity ≤ 12) ∧
    (∀ (σ : Type) (R : UserRepository σ) (s : σ) (user_id : UUID)
        (request : AddToCartRequest),
      (AddItemToCartUseCase.execute R s MockItemService user_id
          request).result ≠ .error "Item does not exists" ∧
      ((AddItemToCartUseCase.execute R s MockItemService user_id
          request).result = .error "Not enough items in stock" ↔
        (∃ user, R.find_by_id s user_id = some user) ∧
          12 < request.quantity)) := by
  refine ⟨fun item_id => rfl, ?_, ?_⟩
  · intro item_id quantity
    show decide ((12 : Int) ≥ quantity) = true ↔ quantity ≤ 12
    simp [ge_iff_le]
  · intro σ R s user_id request
    have hget : MockItemService.get_item request.item_id =
        some ⟨request.item_id, "Mock Item", 12⟩ := rfl
    have hstock : ∀ q : Int, MockItemService.check_stock request.item_id q =
        decide ((12 : Int) ≥ q) := fun q => rfl
    unfold AddItemToCartUseCase.execute
    cases hfind : R.find_by_id s user_id with
    | none =>
      refine ⟨fun hc => absurd (Except.error.inj hc) (by decide),
        iff_of_false (fun hc => absurd (Except.error.inj hc) (by decide)) ?_⟩
      rintro ⟨⟨user, huser⟩, -⟩
      exact Option.noConfusion huser
    | some user =>
      simp only [hget]
      cases hcs : MockItemService.check_stock request.item_id
          request.quantity with
      | false =>
        have hq : 12 < request.quantity := by
          rw [hstock] at hcs
          simpa using of_decide_eq_false hcs
        exact ⟨fun hc => absurd (Except.error.inj hc) (by decide),
          iff_of_true rfl ⟨⟨user, rfl⟩, hq⟩⟩
      | true =>
        have hq12 : request.quantity ≤ 12 := by
          rw [hstock] at hcs
          simpa using of_decide_eq_true hcs
        have hnot : ¬ ((∃ u, some user = some u) ∧ 12 < request.quantity) :=
          fun hc => absurd hc.2 (not_lt.mpr hq12)
        cases hdup : user.cart_items.any
            (fun cart_item => cart_item.item_id == request.item_id) with
        | true =>
          simp only [hdup]
          exact ⟨fun hc => absurd (Except.error.inj hc) (by decide),
            iff_of_false (fun hc => absurd (Except.error.inj hc) (by decide))
              hnot⟩
        | false =>
          simp only [hdup]
          cases hmk : CartItem.make user_id request.item_id
              request.quantity with
          | error e =>
            have he := cartItemMake_error_message _ _ _ _ hmk
            subst he
            simp only [hmk]
            exact ⟨fun hc => absurd (Except.error.inj hc) (by decide),
              iff_of_false (fun hc => absurd (Except.error.inj hc) (by decide))
                hnot⟩
          | ok cart_item =>
            simp only [hmk]
            exact ⟨fun hc => Except.noConfusion hc,
              iff_of_false (fun hc => Except.noConfusion hc) hnot⟩

/-- Witness for C10 at concrete inputs: with the mock service, adding
quantity 13 for the stored user `1` fails with the stock error, and the
result for the absent user `2` is not the item-absent error. -/
theorem mockItemService_behavior_witness :
    MockItemService.get_item 5 = some ⟨5, "Mock Item", 12⟩ ∧
    (MockItemService.check_stock 5 13 = true ↔ (13 : Int) ≤ 12) ∧
    (AddItemToCartUseCase.execute InMemoryUserRepository
        [(1, ⟨1, "p@q.r", "P", "Q", "h", none, []⟩)] MockItemService 1
        ⟨5, 13⟩).result = .error "Not enough items in stock" ∧
    (AddItemToCartUseCase.execute InMemoryUserRepository
        [(1, ⟨1, "p@q.r", "P", "Q", "h", none, []⟩)] MockItemService 2
        ⟨5, 1⟩).result ≠ .error "Item does not exists" := by
  refine ⟨mockItemService_behavior.1 5, mockItemService_behavior.2.1 5 13,
    ?_, ?_⟩
  · exact (mockItemService_behavior.2.2 UserStore InMemoryUserRepository
      [(1, ⟨1, "p@q.r", "P", "Q", "h", none, []⟩)] 1 ⟨5, 13⟩).2.mpr
      ⟨⟨⟨1, "p@q.r", "P", "Q", "h", none, []⟩, rfl⟩, by decide⟩
  · exact (mockItemService_behavior.2.2 UserStore InMemoryUserRepository
      [(1, ⟨1, "p@q.r", "P", "Q", "h", none, []⟩)] 2 ⟨5, 1⟩).1

end BeTaskCA
